import Mathlib

/-!
Shallow embedding of `src/DarkModeProvider.tsx` (react-dark-mode-provider).

The source is a React provider that resolves, persists and synchronizes a
binary color-scheme preference.  We embed its pure logic directly:

* `DarkModeValues` is the TypeScript union `'dark' | 'light'`.
* `localStorage` is modelled as an availability flag plus a partial map
  `String → Option String` (absent keys return `none`; the source reads
  `localStorage.getItem(key) || ''`, i.e. coalesces absence to `""`).
* `window` / `matchMedia` are modelled by `OsEnv`: availability flags plus
  the `media` string and `matches` flag a media query reports.
* React state updates and storage writes become explicit state passing on
  `ProviderState` together with an `Event` trace recording, in execution
  order, the observable actions a call performs.
-/

namespace DarkMode

/-- The TypeScript union type `DarkModeValues = 'dark' | 'light'`. -/
inductive DarkModeValues where
  | dark : DarkModeValues
  | light : DarkModeValues
deriving DecidableEq, Repr

/-- The string each `DarkModeValues` value denotes in the source
(`'dark'` and `'light'` are string literals there). -/
def DarkModeValues.toStr : DarkModeValues → String
  | .dark => "dark"
  | .light => "light"

/-- Shape of the exported `colorSchemes` constant. -/
structure ColorSchemesT where
  dark : DarkModeValues
  light : DarkModeValues
  noPreference : String

/-- `colorSchemes = { dark: 'dark', light: 'light', noPreference: 'no-preference' }`. -/
def colorSchemes : ColorSchemesT :=
  { dark := DarkModeValues.dark
    light := DarkModeValues.light
    noPreference := "no-preference" }

/-- Caller-supplied `config` object: each field may be omitted. -/
structure ConfigInput where
  localStorageKey : Option String
  listenWindowEvents : Option Bool
  useLocalStorage : Option Bool

/-- A fully resolved configuration. -/
structure Config where
  localStorageKey : String
  listenWindowEvents : Bool
  useLocalStorage : Bool

/-- `defaultConfig` from the source. -/
def defaultConfig : Config :=
  { localStorageKey := "__userColorScheme"
    listenWindowEvents := true
    useLocalStorage := false }

/-- The spread `{ ...defaultConfig, ...config }`: a field supplied by the
caller wins, an omitted field falls back to `defaultConfig`. -/
def mergeConfig (config : ConfigInput) : Config :=
  { localStorageKey := config.localStorageKey.getD defaultConfig.localStorageKey
    listenWindowEvents := config.listenWindowEvents.getD defaultConfig.listenWindowEvents
    useLocalStorage := config.useLocalStorage.getD defaultConfig.useLocalStorage }

/-- The host OS / `window` environment seen through `matchMedia`. -/
structure OsEnv where
  windowAvailable : Bool
  matchMediaAvailable : Bool
  media : String → String
  queryMatches : String → Bool

/-- The template literal `(prefers-color-scheme: ${s})`. -/
def prefersQuery (s : String) : String :=
  "(prefers-color-scheme: " ++ s ++ ")"

/--
`getInitialColorScheme(defaultValue, useLocalStorage, localStorageKey)`
from the source, with the ambient `localStorage` and `window` globals made
explicit (`lsAvailable`, `store`, `os`).

Source shape: if `useLocalStorage && localStorage`, read
`localStorage.getItem(key) || ''` and return it when it is exactly
`'dark'` or `'light'`; otherwise fall through to the two `matchMedia`
checks, and finally to `defaultValue`.
-/
def getInitialColorScheme (lsAvailable : Bool) (store : String → Option String)
    (os : OsEnv) (defaultValue : DarkModeValues) (useLocalStorage : Bool)
    (localStorageKey : String) : DarkModeValues :=
  let fromStorage : Option DarkModeValues :=
    if useLocalStorage && lsAvailable then
      let localValue := (store localStorageKey).getD ""
      if localValue = "dark" then some DarkModeValues.dark
      else if localValue = "light" then some DarkModeValues.light
      else none
    else none
  match fromStorage with
  | some v => v
  | none =>
    if os.windowAvailable && os.matchMediaAvailable
        && os.queryMatches (prefersQuery colorSchemes.dark.toStr) then
      colorSchemes.dark
    else if os.windowAvailable && os.matchMediaAvailable
        && os.queryMatches (prefersQuery colorSchemes.light.toStr) then
      colorSchemes.light
    else
      defaultValue

/-- "The OS reports a match for prefers-dark": `window` and `matchMedia`
exist and the dark media query matches. -/
def osReportsDark (os : OsEnv) : Bool :=
  os.windowAvailable && os.matchMediaAvailable
    && os.queryMatches (prefersQuery colorSchemes.dark.toStr)

/-- "The OS reports a match for prefers-light". -/
def osReportsLight (os : OsEnv) : Bool :=
  os.windowAvailable && os.matchMediaAvailable
    && os.queryMatches (prefersQuery colorSchemes.light.toStr)

/-- The mutable state one provider instance owns: the React state cell
`colorScheme` and the contents of the `localStorage` store. -/
structure ProviderState where
  colorScheme : DarkModeValues
  store : String → Option String

/-- Observable actions performed by the update path, in execution order:
a React state update (`setColorScheme`) or a `localStorage.setItem`. -/
inductive Event where
  | setState (v : DarkModeValues) : Event
  | write (key : String) (value : String) : Event
deriving DecidableEq, Repr

/--
`handleChangeColorScheme(colorSchema)`: the source body first calls
`setColorScheme(colorSchema)` and then, when `useLocalStorage && localStorage`,
calls `localStorage.setItem(localStorageKey, colorSchema)`.  The returned
trace lists the actions in that execution order.
-/
def handleChangeColorScheme (useLocalStorage lsAvailable : Bool)
    (localStorageKey : String) (st : ProviderState)
    (colorSchema : DarkModeValues) : ProviderState × List Event :=
  let st1 : ProviderState := { st with colorScheme := colorSchema }
  if useLocalStorage && lsAvailable then
    ({ st1 with
        store := fun k =>
          if k = localStorageKey then some colorSchema.toStr else st1.store k },
      [Event.setState colorSchema, Event.write localStorageKey colorSchema.toStr])
  else
    (st1, [Event.setState colorSchema])

/-- A `change` event delivered by a media-query list: the query it belongs
to and its boolean `matches` flag. -/
structure MediaEvent where
  query : String
  isMatch : Bool
deriving DecidableEq, Repr

/-- `handleSetDarkColorScheme = (event) => event.matches && handleChangeColorScheme(colorSchemes.dark)`. -/
def handleSetDarkColorScheme (useLocalStorage lsAvailable : Bool)
    (localStorageKey : String) (event : MediaEvent) (st : ProviderState) :
    ProviderState × List Event :=
  if event.isMatch then
    handleChangeColorScheme useLocalStorage lsAvailable localStorageKey st colorSchemes.dark
  else (st, [])

/-- `handleSetLightColorScheme = (event) => event.matches && handleChangeColorScheme(colorSchemes.light)`. -/
def handleSetLightColorScheme (useLocalStorage lsAvailable : Bool)
    (localStorageKey : String) (event : MediaEvent) (st : ProviderState) :
    ProviderState × List Event :=
  if event.isMatch then
    handleChangeColorScheme useLocalStorage lsAvailable localStorageKey st colorSchemes.light
  else (st, [])

/-- `handleSetDefaultColorScheme = (event) => event.matches && handleChangeColorScheme(defaultValue)`:
the no-preference channel forwards the originally configured `defaultValue`. -/
def handleSetDefaultColorScheme (useLocalStorage lsAvailable : Bool)
    (localStorageKey : String) (defaultValue : DarkModeValues)
    (event : MediaEvent) (st : ProviderState) : ProviderState × List Event :=
  if event.isMatch then
    handleChangeColorScheme useLocalStorage lsAvailable localStorageKey st defaultValue
  else (st, [])

/-- The three handler closures of one provider instance. -/
inductive Handler where
  | setDark : Handler
  | setLight : Handler
  | setDefault : Handler
deriving DecidableEq, Repr

/-- Dispatch a `Handler` tag to the closure it names. -/
def runHandler (useLocalStorage lsAvailable : Bool) (localStorageKey : String)
    (defaultValue : DarkModeValues) : Handler → MediaEvent → ProviderState →
    ProviderState × List Event
  | .setDark => handleSetDarkColorScheme useLocalStorage lsAvailable localStorageKey
  | .setLight => handleSetLightColorScheme useLocalStorage lsAvailable localStorageKey
  | .setDefault =>
      handleSetDefaultColorScheme useLocalStorage lsAvailable localStorageKey defaultValue

/-- The `useEffect` guard: `listenWindowEvents && !(useLocalStorage &&
localStorage) && window && window.matchMedia('(prefers-color-scheme)').media
!== 'not all'`. -/
def watcherCondition (os : OsEnv) (lsAvailable listenWindowEvents useLocalStorage : Bool) :
    Bool :=
  listenWindowEvents && !(useLocalStorage && lsAvailable) && os.windowAvailable
    && !(os.media "(prefers-color-scheme)" == "not all")

/-- The subscriptions the effect registers: when the guard holds it adds the
three `change` listeners (dark, light, no-preference), otherwise none. -/
def effectSubscriptions (os : OsEnv)
    (lsAvailable listenWindowEvents useLocalStorage : Bool) :
    List (String × Handler) :=
  if watcherCondition os lsAvailable listenWindowEvents useLocalStorage then
    [(prefersQuery colorSchemes.dark.toStr, Handler.setDark),
     (prefersQuery colorSchemes.light.toStr, Handler.setLight),
     (prefersQuery colorSchemes.noPreference, Handler.setDefault)]
  else []

/-- `removeEventListener('change', h)` on the list for query `q`: drops every
subscription of that handler on that query. -/
def removeListener (subs : List (String × Handler)) (q : String) (h : Handler) :
    List (String × Handler) :=
  subs.filter (fun s => !(s.1 == q && s.2 == h))

/-- The effect cleanup: remove the dark, light and no-preference listeners,
in the source's order. -/
def effectCleanup (subs : List (String × Handler)) : List (String × Handler) :=
  removeListener
    (removeListener
      (removeListener subs (prefersQuery colorSchemes.dark.toStr) Handler.setDark)
      (prefersQuery colorSchemes.light.toStr) Handler.setLight)
    (prefersQuery colorSchemes.noPreference) Handler.setDefault

/-- Deliver one media-query `change` event: every subscription registered on
the event's query runs its handler, threading the state and appending traces. -/
def deliverEvent (subs : List (String × Handler))
    (useLocalStorage lsAvailable : Bool) (localStorageKey : String)
    (defaultValue : DarkModeValues) (event : MediaEvent) (st : ProviderState) :
    ProviderState × List Event :=
  subs.foldl
    (fun acc sub =>
      if sub.1 == event.query then
        let r := runHandler useLocalStorage lsAvailable localStorageKey defaultValue
          sub.2 event acc.1
        (r.1, acc.2 ++ r.2)
      else acc)
    (st, [])

/-- A sequence of manual `set` calls on one provider instance, threading the
state and concatenating the event traces. -/
def runSets (useLocalStorage lsAvailable : Bool) (localStorageKey : String)
    (st : ProviderState) : List DarkModeValues → ProviderState × List Event
  | [] => (st, [])
  | v :: vs =>
      let r := handleChangeColorScheme useLocalStorage lsAvailable localStorageKey st v
      let rest := runSets useLocalStorage lsAvailable localStorageKey r.1 vs
      (rest.1, r.2 ++ rest.2)

/-- The `(key, value)` pairs of the `localStorage.setItem` calls in a trace. -/
def writesOf : List Event → List (String × String)
  | [] => []
  | Event.write k v :: es => (k, v) :: writesOf es
  | Event.setState _ :: es => writesOf es

/-- A property value as seen by a wrapped component: the injected color
scheme, the injected setter, or any other payload the caller supplied. -/
inductive PropValue where
  | scheme (v : DarkModeValues) : PropValue
  | setter : PropValue
  | payload (n : Nat) : PropValue
deriving DecidableEq, Repr

/-- A React props object: a partial map from property names to values. -/
def Props : Type := String → Option PropValue

/-- JSX spread `<C {...p} {...q} />`: keys of `q` win over keys of `p`. -/
def spreadTwo (p q : Props) : Props :=
  fun k =>
    match q k with
    | some v => some v
    | none => p k

/-- Spreading the context value `[colorScheme, handleChangeColorScheme]`
with `{...value}`: an array spread into an object yields its indices as
keys, so the resulting properties are named `"0"` and `"1"`. -/
def contextValueSpread (current : DarkModeValues) : Props :=
  fun k =>
    if k = "0" then some (PropValue.scheme current)
    else if k = "1" then some PropValue.setter
    else none

/-- `DarkModeConsumer(Component)` rendered with `props` while the context
value carries `current`: renders `Component` with `{...props} {...value}`. -/
def DarkModeConsumer {α : Type} (Component : Props → α) (props : Props)
    (current : DarkModeValues) : α :=
  Component (spreadTwo props (contextValueSpread current))

/-- The default value of `DarkModeContext`, seen by `useDarkMode` outside
any provider: the pair `[colorSchemes.light, () => null]`.  The setter
`() => null` performs no state update and no storage write. -/
def darkModeContextDefault :
    DarkModeValues × (DarkModeValues → ProviderState → ProviderState × List Event) :=
  (colorSchemes.light, fun _ st => (st, []))

/-!  ## Theorems  -/

/--
C1: for every `defaultValue`, `useLocalStorage` flag, stored-key contents
and OS media-query state, `getInitialColorScheme` returns the persisted
value whenever `useLocalStorage` is true, persistence is available and the
stored string is exactly `"dark"` or `"light"`; otherwise it returns `dark`
if the OS reports a match for prefers-dark, else `light` if the OS reports
a match for prefers-light, else `defaultValue`: persisted choice outranks
the OS signal, which outranks the default.
-/
theorem getInitialColorScheme_precedence (lsAvailable : Bool)
    (store : String → Option String) (os : OsEnv) (defaultValue : DarkModeValues)
    (useLocalStorage : Bool) (localStorageKey : String) :
    getInitialColorScheme lsAvailable store os defaultValue useLocalStorage
        localStorageKey =
      if useLocalStorage = true ∧ lsAvailable = true
          ∧ store localStorageKey = some "dark" then
        DarkModeValues.dark
      else if useLocalStorage = true ∧ lsAvailable = true
          ∧ store localStorageKey = some "light" then
        DarkModeValues.light
      else if osReportsDark os = true then DarkModeValues.dark
      else if osReportsLight os = true then DarkModeValues.light
      else defaultValue := by
  unfold getInitialColorScheme osReportsDark osReportsLight
  rcases hs : store localStorageKey with _ | s <;>
    cases useLocalStorage <;> cases lsAvailable <;>
    (simp [hs, colorSchemes, DarkModeValues.toStr];
      all_goals (split_ifs <;> simp_all))

/--
C2, counterexample: the claim says `set(v)` performs the write-through
first and the `CurrentScheme` update second.  On a concrete call with
`useLocalStorage` enabled and persistence available, the trace is
`[setState, write]` — the state update comes first — and not the claimed
`[write, setState]`.
-/
theorem handleChangeColorScheme_write_not_first :
    (handleChangeColorScheme true true "__userColorScheme"
        { colorScheme := DarkModeValues.light, store := fun _ => none }
        DarkModeValues.dark).2 =
      [Event.setState DarkModeValues.dark,
       Event.write "__userColorScheme" "dark"] ∧
    (handleChangeColorScheme true true "__userColorScheme"
        { colorScheme := DarkModeValues.light, store := fun _ => none }
        DarkModeValues.dark).2 ≠
      [Event.write "__userColorScheme" "dark",
       Event.setState DarkModeValues.dark] := by
  constructor
  · rfl
  · decide

/--
C2, amended: with `useLocalStorage` enabled and persistence available,
`set(v)` performs both actions — the update of `CurrentScheme` first and
then the write-through of `v` under the configured key — leaving the state
cell at `v` and the store holding `v` under the key.
-/
theorem handleChangeColorScheme_update_then_write (localStorageKey : String)
    (st : ProviderState) (v : DarkModeValues) :
    (handleChangeColorScheme true true localStorageKey st v).2 =
      [Event.setState v, Event.write localStorageKey v.toStr] ∧
    (handleChangeColorScheme true true localStorageKey st v).1.colorScheme = v ∧
    (handleChangeColorScheme true true localStorageKey st v).1.store
        localStorageKey = some v.toStr := by
  refine ⟨rfl, rfl, ?_⟩
  simp [handleChangeColorScheme]

/--
C3: the watcher subscribes its three channel listeners if and only if
`listenWindowEvents` is true, NOT(`useLocalStorage` is true AND persistence
is available), and the host's preference-query facility is supported
(`window` exists and the umbrella prefers-color-scheme query does not
report `not all`); and whenever it subscribes, the subscriptions are
exactly the dark, light and no-preference listeners.
-/
theorem watcher_active_iff (os : OsEnv)
    (lsAvailable listenWindowEvents useLocalStorage : Bool) :
    (effectSubscriptions os lsAvailable listenWindowEvents useLocalStorage ≠ []
      ↔ (listenWindowEvents = true
          ∧ ¬(useLocalStorage = true ∧ lsAvailable = true)
          ∧ (os.windowAvailable = true
              ∧ os.media "(prefers-color-scheme)" ≠ "not all"))) ∧
    (effectSubscriptions os lsAvailable listenWindowEvents useLocalStorage = []
      ∨ effectSubscriptions os lsAvailable listenWindowEvents useLocalStorage =
        [(prefersQuery colorSchemes.dark.toStr, Handler.setDark),
         (prefersQuery colorSchemes.light.toStr, Handler.setLight),
         (prefersQuery colorSchemes.noPreference, Handler.setDefault)]) := by
  constructor
  · unfold effectSubscriptions watcherCondition
    by_cases hm : os.media "(prefers-color-scheme)" = "not all" <;>
      cases listenWindowEvents <;> cases useLocalStorage <;> cases lsAvailable <;>
      cases hw : os.windowAvailable <;>
      simp_all [beq_iff_eq]
  · unfold effectSubscriptions
    split
    · exact Or.inr rfl
    · exact Or.inl rfl

/--
C4: while the watcher is active, each channel handler invokes the update
path if and only if the delivered event's match flag is true (an empty
trace means the update path was not invoked), and the value it forwards is
`dark` for the dark channel, `light` for the light channel, and the
originally configured `defaultValue` for the no-preference channel.
-/
theorem watcher_handlers_forward (useLocalStorage lsAvailable : Bool)
    (localStorageKey : String) (defaultValue : DarkModeValues)
    (event : MediaEvent) (st : ProviderState) :
    ((handleSetDarkColorScheme useLocalStorage lsAvailable localStorageKey
        event st).2 ≠ [] ↔ event.isMatch = true) ∧
    ((handleSetLightColorScheme useLocalStorage lsAvailable localStorageKey
        event st).2 ≠ [] ↔ event.isMatch = true) ∧
    ((handleSetDefaultColorScheme useLocalStorage lsAvailable localStorageKey
        defaultValue event st).2 ≠ [] ↔ event.isMatch = true) ∧
    ((handleSetDarkColorScheme useLocalStorage lsAvailable localStorageKey
        event st).1.colorScheme =
      if event.isMatch then DarkModeValues.dark else st.colorScheme) ∧
    ((handleSetLightColorScheme useLocalStorage lsAvailable localStorageKey
        event st).1.colorScheme =
      if event.isMatch then DarkModeValues.light else st.colorScheme) ∧
    ((handleSetDefaultColorScheme useLocalStorage lsAvailable localStorageKey
        defaultValue event st).1.colorScheme =
      if event.isMatch then defaultValue else st.colorScheme) ∧
    (handleSetDarkColorScheme useLocalStorage lsAvailable localStorageKey
        event st =
      if event.isMatch then
        handleChangeColorScheme useLocalStorage lsAvailable localStorageKey st
          colorSchemes.dark
      else (st, [])) ∧
    (handleSetDefaultColorScheme useLocalStorage lsAvailable localStorageKey
        defaultValue event st =
      if event.isMatch then
        handleChangeColorScheme useLocalStorage lsAvailable localStorageKey st
          defaultValue
      else (st, [])) := by
  cases he : event.isMatch <;>
    cases useLocalStorage <;> cases lsAvailable <;>
    simp [handleSetDarkColorScheme, handleSetLightColorScheme,
      handleSetDefaultColorScheme, handleChangeColorScheme, he, colorSchemes]

/--
C5: after provider teardown (the effect cleanup has run on whatever the
effect subscribed), no handler remains subscribed, so delivering any
further OS channel event leaves `CurrentScheme` and the persistence store
untouched and performs no action.
-/
theorem teardown_no_dangling_handler (os : OsEnv)
    (lsAvailable listenWindowEvents useLocalStorage : Bool)
    (localStorageKey : String) (defaultValue : DarkModeValues)
    (event : MediaEvent) (st : ProviderState) :
    effectCleanup
        (effectSubscriptions os lsAvailable listenWindowEvents useLocalStorage)
      = [] ∧
    deliverEvent
        (effectCleanup
          (effectSubscriptions os lsAvailable listenWindowEvents useLocalStorage))
        useLocalStorage lsAvailable localStorageKey defaultValue event st
      = (st, []) := by
  have h : effectCleanup
      (effectSubscriptions os lsAvailable listenWindowEvents useLocalStorage)
      = [] := by
    unfold effectSubscriptions
    split
    · rfl
    · rfl
  exact ⟨h, by rw [h]; rfl⟩

/--
C6, counterexample: the claim says the wrapped component receives the
current scheme and the setter under `colorScheme` /
`handleChangeColorScheme`-equivalent names.  Rendering the wrapper of the
identity component with empty props while the context holds `dark` shows
the injected properties are keyed `"0"` and `"1"` (the context value is an
array, and `{...value}` spreads its indices), while `colorScheme` and
`handleChangeColorScheme` are absent.
-/
theorem darkModeConsumer_props_not_named :
    DarkModeConsumer (fun pr => pr) (fun _ => none) DarkModeValues.dark
        "colorScheme" = none ∧
    DarkModeConsumer (fun pr => pr) (fun _ => none) DarkModeValues.dark
        "handleChangeColorScheme" = none ∧
    DarkModeConsumer (fun pr => pr) (fun _ => none) DarkModeValues.dark
        "0" = some (PropValue.scheme DarkModeValues.dark) ∧
    DarkModeConsumer (fun pr => pr) (fun _ => none) DarkModeValues.dark
        "1" = some PropValue.setter :=
  ⟨rfl, rfl, rfl, rfl⟩

/--
C6, amended: for every component, props object and current scheme, the
component returned by `DarkModeConsumer` renders the wrapped component with
all of the props object's properties except `"0"` and `"1"`, plus two
additional properties keyed `"0"` (the current color scheme) and `"1"`
(the setter) — the array-index keys produced by spreading the context
tuple, not `colorScheme`/`handleChangeColorScheme`-named properties.
-/
theorem darkModeConsumer_props_spec {α : Type} (Component : Props → α)
    (props : Props) (current : DarkModeValues) :
    DarkModeConsumer Component props current =
      Component (fun k =>
        if k = "0" then some (PropValue.scheme current)
        else if k = "1" then some PropValue.setter
        else props k) := by
  unfold DarkModeConsumer spreadTwo contextValueSpread
  congr 1
  funext k
  by_cases h0 : k = "0"
  · simp [h0]
  · by_cases h1 : k = "1" <;> simp [h0, h1]

/-- Traces of storage writes distribute over trace concatenation. -/
theorem writesOf_append (es fs : List Event) :
    writesOf (es ++ fs) = writesOf es ++ writesOf fs := by
  induction es with
  | nil => rfl
  | cons e es ih => cases e <;> simp [writesOf, ih]

/-- The writes of a sequence of `set` calls: one write per call when
persistence is in effect, none otherwise, always under the given key. -/
theorem runSets_writes (useLocalStorage lsAvailable : Bool) (key : String)
    (st : ProviderState) (vs : List DarkModeValues) :
    writesOf (runSets useLocalStorage lsAvailable key st vs).2 =
      if useLocalStorage && lsAvailable then
        vs.map (fun v => (key, v.toStr))
      else [] := by
  induction vs generalizing st with
  | nil => cases h : useLocalStorage && lsAvailable <;> simp [runSets, writesOf, h]
  | cons v vs ih =>
      cases h : useLocalStorage && lsAvailable <;>
        simp [runSets, handleChangeColorScheme, h, writesOf, writesOf_append, ih]

/--
C7: over every sequence of `set` calls on one provider instance, the
persistence store is written if and only if the merged configuration's
`useLocalStorage` is true and persistence is available (one write per
call), and every write uses exactly the merged configuration's
`localStorageKey`; an omitted key falls back to `"__userColorScheme"`.
-/
theorem persistence_write_invariant (config : ConfigInput) (lsAvailable : Bool)
    (st : ProviderState) (vs : List DarkModeValues) :
    writesOf (runSets (mergeConfig config).useLocalStorage lsAvailable
        (mergeConfig config).localStorageKey st vs).2 =
      (if (mergeConfig config).useLocalStorage && lsAvailable then
        vs.map (fun v => ((mergeConfig config).localStorageKey, v.toStr))
      else []) ∧
    (mergeConfig
        { localStorageKey := none, listenWindowEvents := none,
          useLocalStorage := none }).localStorageKey = "__userColorScheme" :=
  ⟨runSets_writes (mergeConfig config).useLocalStorage lsAvailable
      (mergeConfig config).localStorageKey st vs, rfl⟩

/--
C8: with `useLocalStorage` true, every stored string other than exactly
`"dark"` or `"light"` (the empty string included) is ignored:
`getInitialColorScheme` returns the same result as if the key were absent,
and the same result as the no-persistence path (OS-query tier, then the
default).
-/
theorem corrupt_value_ignored (lsAvailable : Bool)
    (store : String → Option String) (os : OsEnv)
    (defaultValue : DarkModeValues) (localStorageKey : String) (v : String)
    (hd : v ≠ "dark") (hl : v ≠ "light")
    (hs : store localStorageKey = some v) :
    getInitialColorScheme lsAvailable store os defaultValue true
        localStorageKey =
      getInitialColorScheme lsAvailable
        (fun k => if k = localStorageKey then none else store k) os
        defaultValue true localStorageKey ∧
    getInitialColorScheme lsAvailable store os defaultValue true
        localStorageKey =
      getInitialColorScheme lsAvailable store os defaultValue false
        localStorageKey := by
  unfold getInitialColorScheme
  cases lsAvailable <;> simp [hs, hd, hl]

/-- Witness for C8 at the corrupt stored value `"banana"`: both hypotheses
hold and the resolution ignores the stored value. -/
theorem corrupt_value_ignored_witness :
    (("banana" : String) ≠ "dark") ∧ (("banana" : String) ≠ "light") ∧
    ((fun k => if k = "__userColorScheme" then some "banana" else none)
        "__userColorScheme" = some "banana") ∧
    (getInitialColorScheme true
        (fun k => if k = "__userColorScheme" then some "banana" else none)
        { windowAvailable := true, matchMediaAvailable := true,
          media := fun _ => "all", queryMatches := fun _ => true }
        DarkModeValues.light true "__userColorScheme" =
      getInitialColorScheme true
        (fun k => if k = "__userColorScheme" then none
          else (fun k2 =>
            if k2 = "__userColorScheme" then some "banana" else none) k)
        { windowAvailable := true, matchMediaAvailable := true,
          media := fun _ => "all", queryMatches := fun _ => true }
        DarkModeValues.light true "__userColorScheme" ∧
      getInitialColorScheme true
        (fun k => if k = "__userColorScheme" then some "banana" else none)
        { windowAvailable := true, matchMediaAvailable := true,
          media := fun _ => "all", queryMatches := fun _ => true }
        DarkModeValues.light true "__userColorScheme" =
      getInitialColorScheme true
        (fun k => if k = "__userColorScheme" then some "banana" else none)
        { windowAvailable := true, matchMediaAvailable := true,
          media := fun _ => "all", queryMatches := fun _ => true }
        DarkModeValues.light false "__userColorScheme") :=
  ⟨by decide, by decide, by simp,
    corrupt_value_ignored true
      (fun k => if k = "__userColorScheme" then some "banana" else none)
      { windowAvailable := true, matchMediaAvailable := true,
        media := fun _ => "all", queryMatches := fun _ => true }
      DarkModeValues.light "__userColorScheme" "banana"
      (by decide) (by decide) (by simp)⟩

/--
C9: round-trip — calling `set(x)` on a provider with `useLocalStorage`
true, persistence available and key `k`, then resolving a fresh provider
with `useLocalStorage` true and the same key over the resulting store,
yields initial scheme `x` regardless of the fresh provider's
`defaultValue` and the OS query state.
-/
theorem set_then_fresh_provider_roundtrip (x : DarkModeValues) (key : String)
    (st : ProviderState) (os : OsEnv) (defaultValue : DarkModeValues) :
    getInitialColorScheme true
        ((handleChangeColorScheme true true key st x).1.store) os
        defaultValue true key = x := by
  cases x <;>
    simp [handleChangeColorScheme, getInitialColorScheme, DarkModeValues.toStr]

/--
C10: the context value read outside any provider is the pair
`(light, f)` where `f` is a no-op setter: applying it changes neither the
scheme state nor the persistence store and performs no action.
-/
theorem useDarkMode_outside_provider :
    darkModeContextDefault.1 = DarkModeValues.light ∧
    ∀ (v : DarkModeValues) (st : ProviderState),
      (darkModeContextDefault.2 v st).1.colorScheme = st.colorScheme ∧
      (darkModeContextDefault.2 v st).1.store = st.store ∧
      (darkModeContextDefault.2 v st).2 = [] :=
  ⟨rfl, fun _ _ => ⟨rfl, rfl, rfl⟩⟩

end DarkMode
